import Mathlib

/-!
Verification of the TeX stack-item parser core (`BaseItems.ts`).

The parser is a shift-reduce machine over "stack items".  Each concrete item
class overrides `checkItem(incoming)` which decides how the top of the stack
reacts to a newly pushed item.  This file gives a shallow embedding of the
stack-item data model and of the `checkItem` methods that the claims concern,
and proves the claimed properties about them.

Translation conventions:
* MathML tree nodes become the inductive `MmlNode`; JS array holes created by
  out-of-range `childNodes[i] = c` assignments become the `MmlNode.null`
  constructor.
* The helpers `TreeHelper.createNode(kind, children, def, text)` distribute
  the `def` record over node attributes and node properties; each call site
  below is written with the split the source semantics produces (`texClass`,
  `withDelims`, `variantForm`, `movesupsub` are node properties; `width`,
  `linethickness`, `notation` and friends are attributes).
* Exceptions (`throw new TexError([...])`) become `Except TexError`.
* JS string length counts UTF-16 code units; `jsLen` models that.
-/

/-- TeX classes (from `MmlNode.ts`): ORD. -/
def TEXCLASS_ORD : Int := 0

/-- TeX class OP. -/
def TEXCLASS_OP : Int := 1

/-- TeX class BIN. -/
def TEXCLASS_BIN : Int := 2

/-- TeX class REL. -/
def TEXCLASS_REL : Int := 3

/-- TeX class OPEN. -/
def TEXCLASS_OPEN : Int := 4

/-- TeX class CLOSE. -/
def TEXCLASS_CLOSE : Int := 5

/-- TeX class PUNCT. -/
def TEXCLASS_PUNCT : Int := 6

/-- TeX class INNER. -/
def TEXCLASS_INNER : Int := 7

/-- TeX class NONE. -/
def TEXCLASS_NONE : Int := -1

/-- Values stored in node attribute / node property maps. -/
inductive NVal where
  | str (s : String)
  | num (n : Int)
  | bool (b : Bool)
deriving DecidableEq, Repr

/-- JS truthiness of an attribute / property value. -/
def NVal.truthy : NVal → Bool
  | .str s => s ≠ ""
  | .num n => n ≠ 0
  | .bool b => b

/-- A MathML tree node: an element node with a kind tag, attributes,
properties and children; a text node holding a string; or `null`, the
embedding of a JS array hole / `undefined` child slot. -/
inductive MmlNode where
  | elem (kind : String) (attrs : List (String × NVal)) (props : List (String × NVal))
      (children : List MmlNode)
  | text (s : String)
  | null

/-- The kind tag of a node (text and null nodes get pseudo-kinds that no
`isType` query in the source ever asks for). -/
def MmlNode.kindOf : MmlNode → String
  | .elem k _ _ _ => k
  | .text _ => "text"
  | .null => "null"

/-- Modelled from the spec: `TreeHelper.isType(node, kind)` asks
`node.isKind(kind)`, which is an `instanceof` test against the class
registered for `kind` (`MmlNode.ts` / `TreeHelper.ts` are not in src/).  In
the MathML node class hierarchy `MmlMsub` and `MmlMsup` are subclasses of
`MmlMsubsup`, so an `msub` or `msup` node answers `true` to
`isType(_, 'msubsup')`; every other query used by the source is an exact
kind match. -/
def isType (n : MmlNode) (k : String) : Bool :=
  if k = "msubsup" then
    n.kindOf = "msubsup" || n.kindOf = "msub" || n.kindOf = "msup"
  else
    n.kindOf = k

/-- Modelled from the spec: the superscript slot index `(node as
MmlMsubsup).sup` (`msubsup.ts` is not in src/).  `MmlMsubsup` puts the base
at child 0, the subscript at 1 and the superscript at 2; the `MmlMsup`
subclass has no subscript and overrides the superscript slot to 1.  The
spec's prime rule "else sets the existing sup slot" refers to this index. -/
def supIdx (n : MmlNode) : Nat :=
  if n.kindOf = "msup" then 1 else 2

/-- JS `childNodes[i] = c` on a list of children: in-range indices are
overwritten, out-of-range assignment extends the array with holes. -/
def setChildList : List MmlNode → Nat → MmlNode → List MmlNode
  | [], 0, c => [c]
  | [], n + 1, c => .null :: setChildList [] n c
  | _ :: rest, 0, c => c :: rest
  | x :: rest, n + 1, c => x :: setChildList rest n c

/-- `TreeHelper.setData(node, i, child)`: write child slot `i`. -/
def setChild : MmlNode → Nat → MmlNode → MmlNode
  | .elem k a p cs, i, c => .elem k a p (setChildList cs i c)
  | n, _, _ => n

/-- `TreeHelper.appendChildren(node, children)`. -/
def appendChildren : MmlNode → List MmlNode → MmlNode
  | .elem k a p cs, more => .elem k a p (cs ++ more)
  | n, _ => n

/-- `TreeHelper.getChildren(node)` (`node.childNodes`). -/
def getChildren : MmlNode → List MmlNode
  | .elem _ _ _ cs => cs
  | _ => []

/-- `TreeHelper.getText(node)` on a token node: concatenation of the text of
the node's text children. -/
def MmlNode.getText : MmlNode → String
  | .elem _ _ _ cs => String.join (cs.map fun c =>
      match c with
      | .text s => s
      | _ => "")
  | .text s => s
  | .null => ""

/-- Replace-or-add assignment in a string-keyed association list (JS object
field assignment). -/
def setKey {α : Type} (l : List (String × α)) (k : String) (v : α) : List (String × α) :=
  (k, v) :: l.filter fun p => p.1 ≠ k

/-- `TreeHelper.getProperty(node, name)`. -/
def getNodeProp (n : MmlNode) (k : String) : Option NVal :=
  match n with
  | .elem _ _ ps _ => ps.lookup k
  | _ => none

/-- `TreeHelper.setProperties(node, record)` for property-only records. -/
def setNodeProps (n : MmlNode) (kvs : List (String × NVal)) : MmlNode :=
  match n with
  | .elem k a ps cs => .elem k a (kvs.foldl (fun acc kv => setKey acc kv.1 kv.2) ps) cs
  | m => m

/-- `TreeHelper.setAttribute(node, name, value)`. -/
def setAttr (n : MmlNode) (k : String) (v : NVal) : MmlNode :=
  match n with
  | .elem kd a ps cs => .elem kd (setKey a k v) ps cs
  | m => m

/-- `TreeHelper.getAttribute(node, name)`. -/
def getAttr (n : MmlNode) (k : String) : Option NVal :=
  match n with
  | .elem _ a _ _ => a.lookup k
  | _ => none

/-- JS `string.length`: number of UTF-16 code units (astral-plane characters
count 2). -/
def jsLen (s : String) : Nat :=
  (s.data.map fun c => if c.toNat < 65536 then 1 else 2).sum

/-- Values stored in a stack item's property bag (`getProperty` /
`setProperty`): strings, numbers, booleans or whole tree nodes. -/
inductive PVal where
  | str (s : String)
  | num (n : Int)
  | bool (b : Bool)
  | node (n : MmlNode)

/-- JS truthiness of a property value (an object reference is truthy). -/
def PVal.truthy : PVal → Bool
  | .str s => s ≠ ""
  | .num n => n ≠ 0
  | .bool b => b
  | .node _ => true

/-- JS string coercion of a property value (used by `prop + 'em'`). -/
def PVal.toJsString : PVal → String
  | .str s => s
  | .num n => toString n
  | .bool b => toString b
  | .node _ => "[object Object]"

/-- A stack item: its `kind` tag, the accumulated `nodes` payload, the
property bag, and the registered close-kind → (error id, error message)
table. -/
structure StackItem where
  kind : String
  nodes : List MmlNode := []
  props : List (String × PVal) := []
  errors : List (String × String × String) := []

/-- `this.getProperty(name)`. -/
def StackItem.getProperty (s : StackItem) (k : String) : Option PVal :=
  s.props.lookup k

/-- `this.setProperty(name, value)`. -/
def StackItem.setProperty (s : StackItem) (k : String) (v : PVal) : StackItem :=
  { s with props := setKey s.props k v }

/-- `this.getName()` (`getProperty('name')` as a string). -/
def StackItem.getName (s : StackItem) : Option String :=
  match s.getProperty "name" with
  | some (.str n) => some n
  | _ => none

/-- `getName()` with JS `undefined` collapsed to the empty string (used when
the name is interpolated into an error). -/
def StackItem.nameD (s : StackItem) : String :=
  (s.getName).getD ""

/-- `this.Top` as an option (JS `undefined` when `nodes` is empty). -/
def StackItem.Top? (s : StackItem) : Option MmlNode :=
  s.nodes.head?

/-- `this.Top` where the source assumes the payload is nonempty. -/
def StackItem.TopD (s : StackItem) : MmlNode :=
  s.nodes.headD .null

/-- The `Top` setter: `item.Top = node` overwrites `nodes[0]`. -/
def StackItem.setTop (s : StackItem) (n : MmlNode) : StackItem :=
  { s with nodes := n :: s.nodes.tail }

/-- Truthiness of a stack-item property (`if (this.getProperty(k))`). -/
def truthyProp (s : StackItem) (k : String) : Bool :=
  match s.getProperty k with
  | some v => v.truthy
  | none => false

/-- String-valued property with JS `undefined` collapsed to `""`. -/
def getStrPropD (s : StackItem) (k : String) : String :=
  match s.getProperty k with
  | some (.str v) => v
  | _ => ""

/-- `isOpen` by item kind, collected from the concrete classes of
`BaseItems.ts` (start, open, left, begin, array override it to true). -/
def isOpenKind (k : String) : Bool :=
  k = "start" || k = "open" || k = "left" || k = "begin" || k = "array"

/-- `isClose` by item kind (stop, close, over, right, end, cell). -/
def isCloseKind (k : String) : Bool :=
  k = "stop" || k = "close" || k = "over" || k = "right" || k = "end" || k = "cell"

/-- `isFinal` by item kind (mml only). -/
def isFinalKind (k : String) : Bool :=
  k = "mml"

/-- An element of a `checkItem` result sequence: a stack item or a bare tree
node (bare nodes get wrapped by the stack driver). -/
inductive StackElt where
  | item (i : StackItem)
  | node (n : MmlNode)

/-- The result of a `checkItem` call: `keep` is the TS `return true` (push
the incoming item unchanged), `drop` is `return false` (discard it), `res`
is a replacement item / sequence, `undef` is falling off the end of the
method (`return;`). -/
inductive CheckRes where
  | keep
  | drop
  | res (elts : List StackElt)
  | undef

/-- A raised `TexError`: message id, message template, template arguments. -/
structure TexError where
  id : String
  msg : String
  args : List String

/-- Modelled from the spec: `StackItem.toMml(inferred = true)`
(`StackItem.ts` is not in src/).  Builds a single tree node from `nodes`: a
single child is returned as is; several children are wrapped in an inferred
row (or a plain row when `inferred` is false). -/
def toMml (s : StackItem) (inferred : Bool := true) : MmlNode :=
  match s.nodes with
  | [n] => n
  | ns => .elem (if inferred then "inferredMrow" else "mrow") [] [] ns

/-- Modelled from the spec: the default `BaseItem.checkItem`
(`StackItem.ts` is not in src/): if the incoming item is a close item and an
error is registered for its kind, fail with that message; a close item with
no registered error signals a generic stack-mismatch failure; anything else
is treated as an implicit open (`return true`). -/
def baseCheckItem (self incoming : StackItem) : Except TexError CheckRes :=
  if isCloseKind incoming.kind then
    match self.errors.lookup incoming.kind with
    | some (i, m) => .error ⟨i, m, []⟩
    | none => .error ⟨"StackMismatch", "stack mismatch", []⟩
  else
    .ok .keep

/-- `this.factory.create('mml', node)`. -/
def mmlItem (n : MmlNode) : StackItem :=
  { kind := "mml", nodes := [n] }

/-- Modelled from the spec: a delimiter `mo` token as produced by the fence
builders of `ParseUtil.ts` (not in src/). -/
def moDelim (c : String) : MmlNode :=
  .elem "mo" [] [] [.text c]

/-- Modelled from the spec: `ParseUtil.fenced(open, mml, close)` "wraps
content as a fenced group using the two delimiter characters"
(`ParseUtil.ts` is not in src/): an inner row holding open delimiter,
content, close delimiter. -/
def fenced (op : String) (mml : MmlNode) (cl : String) : MmlNode :=
  .elem "mrow" [] [("open", .str op), ("close", .str cl), ("texClass", .num TEXCLASS_INNER)]
    [moDelim op, mml, moDelim cl]

/-- Modelled from the spec: `ParseUtil.fixedFence(open, mml, close)`, the
fixed-size fence used around a fraction with delimiters (`ParseUtil.ts` is
not in src/): a row holding open delimiter, content, close delimiter. -/
def fixedFence (op : String) (mml : MmlNode) (cl : String) : MmlNode :=
  .elem "mrow" [] [("open", .str op), ("close", .str cl)]
    [moDelim op, mml, moDelim cl]

/-- `PrimeItem.checkItem` (`BaseItems.ts` 185-197): with `[top0, top1] =
this.TopN(2)` (the base node and the collected prime glyphs), a base that is
not an `msubsup` gets a fresh `msup(top0, top1)`; otherwise the primes are
written into the base's existing sup slot; either way the result and the
incoming item are re-pushed. -/
def PrimeItem.checkItem (self item : StackItem) : CheckRes :=
  let top0 := self.nodes.headD .null
  let top1 := (self.nodes.drop 1).headD .null
  if !isType top0 "msubsup" then
    .res [.node (.elem "msup" [] [] [top0, top1]), .item item]
  else
    .res [.node (setChild top0 (supIdx top0) top1), .item item]

/-- The error table registered by the `SubsupItem` constructor
(`BaseItems.ts` 202-213). -/
def subsupErrors : List (String × String × String) :=
  [("stop", "MissingScript", "Missing superscript or subscript argument"),
   ("sup", "MissingOpenForSup", "Missing open brace for superscript"),
   ("sub", "MissingOpenForSub", "Missing open brace for subscript")]

/-- A `subsup` item as produced by the `SubsupItem` constructor. -/
def subsupItem (nodes : List MmlNode) (props : List (String × PVal)) : StackItem :=
  { kind := "subsup", nodes := nodes, props := props, errors := subsupErrors }

/-- Conversion of an item property value to a node property value (used when
`setProperties` copies an item property such as `movesupsub` onto a node). -/
def pvalToNVal : PVal → Option NVal
  | .str s => some (.str s)
  | .num n => some (.num n)
  | .bool b => some (.bool b)
  | .node _ => none

/-- `SubsupItem.checkItem` (`BaseItems.ts` 225-258): open/left pass through;
an incoming `mml` item is written into the pending base node at the item's
`position` slot, with a queued `primes` node either written into slot 2
(when the position is not the superscript) or variant-form-flagged and
wrapped in a row in front of the incoming subtree (when it is); any other
incoming item goes to the default handler and, if that returns true, raises
the error selected by `['', 'sub', 'sup'][position]`. -/
def SubsupItem.checkItem (self item : StackItem) : Except TexError CheckRes :=
  if item.kind = "open" || item.kind = "left" then
    .ok .keep
  else
    let top := self.TopD
    let position : Int :=
      match self.getProperty "position" with
      | some (.num n) => n
      | _ => 0
    if item.kind = "mml" then
      let primes? :=
        match self.getProperty "primes" with
        | some (.node p) => some p
        | _ => none
      let top1 :=
        match primes? with
        | some p => if position ≠ 2 then setChild top 2 p else top
        | none => top
      let itop :=
        match primes? with
        | some p =>
          if position ≠ 2 then item.TopD
          else .elem "mrow" [] []
            [setNodeProps p [("variantForm", .bool true)], item.TopD]
        | none => item.TopD
      let top2 := setChild top1 position.toNat itop
      let top3 :=
        match self.getProperty "movesupsub" with
        | some v =>
          match pvalToNVal v with
          | some nv => setNodeProps top2 [("movesupsub", nv)]
          | none => top2
        | none => top2
      .ok (.res [.item (mmlItem top3)])
    else
      match baseCheckItem self item with
      | .error e => .error e
      | .ok .drop => .ok .undef
      | .ok _ =>
        let key := if position = 1 then "sub" else if position = 2 then "sup" else ""
        match self.errors.lookup key with
        | some (i, m) => .error ⟨i, m, []⟩
        | none => .error ⟨"", "", []⟩

/-- An `over` item as produced by the `OverItem` constructor
(`BaseItems.ts` 264-267): its name property is `\over`. -/
def overItem (nodes : List MmlNode) (props : List (String × PVal)) : StackItem :=
  StackItem.setProperty { kind := "over", nodes := nodes, props := props } "name" (.str "\\over")

/-- `OverItem.checkItem` (`BaseItems.ts` 288-313): a second `over` raises
"Ambiguous use of %1" with the incoming item's name; any other close item
builds `mfrac(num, toMml(false))`, applies a stored `thickness` as the
`linethickness` attribute, marks the fraction `withDelims` and wraps it in a
fixed fence when an `open` or `close` delimiter property is truthy, and
re-pushes the resulting mml item followed by the close item. -/
def OverItem.checkItem (self item : StackItem) : Except TexError CheckRes :=
  if item.kind = "over" then
    .error ⟨"AmbiguousUseOf", "Ambiguous use of %1", [item.nameD]⟩
  else if isCloseKind item.kind then
    let num :=
      match self.getProperty "num" with
      | some (.node n) => n
      | _ => .null
    let mml0 : MmlNode := .elem "mfrac" [] [] [num, toMml self false]
    let mml1 :=
      match self.getProperty "thickness" with
      | some v =>
        match pvalToNVal v with
        | some nv => setAttr mml0 "linethickness" nv
        | none => mml0
      | none => mml0
    let mml2 :=
      if truthyProp self "open" || truthyProp self "close" then
        fixedFence (getStrPropD self "open")
          (setNodeProps mml1 [("withDelims", .bool true)]) (getStrPropD self "close")
      else mml1
    .ok (.res [.item (mmlItem mml2), .item item])
  else
    baseCheckItem self item

/-- A `left` item as produced by the `LeftItem` constructor
(`BaseItems.ts` 328-334): default delimiter `(` and the
`ExtraLeftMissingRight` error registered for the `stop` close kind. -/
def leftItem (nodes : List MmlNode) (props : List (String × PVal)) : StackItem :=
  StackItem.setProperty
    { kind := "left", nodes := nodes, props := props,
      errors := [("stop", "ExtraLeftMissingRight", "Extra \\left or missing \\right")] }
    "delim" (.str "(")

/-- `LeftItem.checkItem` (`BaseItems.ts` 355-364): an incoming `right` item
reduces to a single mml item fencing the accumulated content between the two
delimiters; everything else goes to the default handler (where the
registered `stop` error fires for an unmatched `\left`). -/
def LeftItem.checkItem (self item : StackItem) : Except TexError CheckRes :=
  if item.kind = "right" then
    .ok (.res [.item (mmlItem
      (fenced (getStrPropD self "delim") (toMml self) (getStrPropD item "delim")))])
  else
    baseCheckItem self item

/-- `BeginItem.checkItem` (`BaseItems.ts` 412-434): an `end` with a
different name raises `EnvBadEnd` with both names; a matching `end` with no
`end` property reduces to a single mml item of the accumulated content
(the `end`-property case is the dead `return;` branch); a `stop` raises
`EnvMissingEnd` with the begin item's name. -/
def BeginItem.checkItem (self item : StackItem) : Except TexError CheckRes :=
  if item.kind = "end" then
    if item.getName ≠ self.getName then
      .error ⟨"EnvBadEnd", "\\begin{%1} ended with \\end{%2}", [self.nameD, item.nameD]⟩
    else if !truthyProp self "end" then
      .ok (.res [.item (mmlItem (toMml self))])
    else
      .ok .undef
  else if item.kind = "stop" then
    .error ⟨"EnvMissingEnd", "Missing \\end{%1}", [self.nameD]⟩
  else
    baseCheckItem self item

/-- The external operator queries used by `FnItem.checkItem`:
`TreeHelper.isEmbellished`, `TreeHelper.getCoreMO` and `TreeHelper.getForm`
(the operator-dictionary entry `[lspace, rspace, texclass]` of the core
operator).  These walk the MathML class hierarchy and the operator
dictionary, which are external collaborators, so the embedding takes them as
parameters. -/
structure MoOracle where
  isEmbellished : MmlNode → Bool
  getCoreMO : MmlNode → MmlNode
  getForm : MmlNode → Option (Int × Int × Int)

/-- The invisible apply-function operator
`createNode('mo', [], {texClass: TEXCLASS.NONE}, ApplyFunction)` built by
`FnItem.checkItem` (`Entities.ApplyFunction` is U+2061). -/
def applyFnMO : MmlNode :=
  .elem "mo" [] [("texClass", .num TEXCLASS_NONE)] [.text "⁡"]

/-- The form lookup table `[0, 0, 1, 1, 0, 1, 1, 0, 0, 0]` of
`FnItem.checkItem` (`BaseItems.ts` 778). -/
def fnFormTable : List Int := [0, 0, 1, 1, 0, 1, 1, 0, 0, 0]

/-- JS `[0,0,1,1,0,1,1,0,0,0][i]` truthiness: an in-range index reads the
table (0 is falsy), an out-of-range index gives `undefined` (falsy). -/
def fnFormSuppress (i : Int) : Bool :=
  if 0 ≤ i ∧ i < 10 then fnFormTable.getD i.toNat 0 ≠ 0 else false

/-- `FnItem.checkItem` (`BaseItems.ts` 752-792): with a nonempty payload,
open items pass through; a non-`fn` incoming item is re-pushed without an
operator when it is not an mml item carrying a node, when its node is an
`mspace`, or when its (embellished-unwrapped) core operator's dictionary
entry has a form class whose table entry is 1; otherwise — including for an
incoming `fn` item — the invisible apply-function `mo` is inserted between
the function node and the incoming item.  With an empty payload the default
handler runs. -/
def FnItem.checkItem (o : MoOracle) (self item : StackItem) : Except TexError CheckRes :=
  match self.Top? with
  | some top =>
    if isOpenKind item.kind then
      .ok .keep
    else
      let passThrough : Bool :=
        if item.kind ≠ "fn" then
          match (if item.kind = "mml" then item.Top? else none) with
          | none => true
          | some mml =>
            if isType mml "mspace" then true
            else
              let core := if o.isEmbellished mml then o.getCoreMO mml else mml
              match o.getForm core with
              | some f => fnFormSuppress f.2.2
              | none => false
        else false
      if passThrough then
        .ok (.res [.node top, .item item])
      else
        .ok (.res [.node top, .node applyFnMO, .item item])
  | none => baseCheckItem self item

/-- The struck-through overlay built by `NotItem.checkItem`
(`BaseItems.ts` 845-852): a width-0 `mpadded` around an `mtext` holding
U+29F8, wrapped in a `TeXAtom` of TeX class REL. -/
def notLargeOverlay : MmlNode :=
  .elem "TeXAtom" [] [("texClass", .num TEXCLASS_REL)]
    [.elem "mpadded" [("width", .num 0)] [] [.elem "mtext" [] [] [.text "⧸"]]]

/-- `NotItem.checkItem` (`BaseItems.ts` 810-853), parameterised by the
`not_remap` character table (an external symbol map; `contains`/`lookup`
become one `Option`-valued function).  Open/left pass through; an incoming
mml item whose node is an `mo`/`mi`/`mtext` token with a single-code-unit
text, no truthy `movesupsub` property and exactly one child gets its text
remapped to the negated glyph (remap hit) or a combining slash U+0338
appended (miss), and the mutated incoming item is the single result; every
other shape pushes the struck-through overlay before the incoming item. -/
def NotItem.checkItem (remap : String → Option String) (_self item : StackItem) : CheckRes :=
  if item.kind = "open" || item.kind = "left" then
    .keep
  else
    let tokenCase : Option CheckRes :=
      if item.kind = "mml" then
        match item.Top? with
        | some mml =>
          if isType mml "mo" || isType mml "mi" || isType mml "mtext" then
            let c := mml.getText
            let moved :=
              match getNodeProp mml "movesupsub" with
              | some v => v.truthy
              | none => false
            if jsLen c = 1 && !moved && (getChildren mml).length = 1 then
              match remap c with
              | some r => some (.res [.item (item.setTop (setChild mml 0 (.text r)))])
              | none =>
                some (.res [.item (item.setTop (appendChildren mml [.text "̸"]))])
            else none
          else none
        | none => none
      else none
    match tokenCase with
    | some r => r
    | none => .res [.node notLargeOverlay, .item item]

/-- Concrete begin item named `foo`. -/
def beginFoo : StackItem := { kind := "begin", props := [("name", .str "foo")] }

/-- Concrete end item named `bar`. -/
def endBar : StackItem := { kind := "end", props := [("name", .str "bar")] }

/-- Concrete end item named `foo`. -/
def endFoo : StackItem := { kind := "end", props := [("name", .str "foo")] }

/-- Concrete terminal stop item. -/
def stopItemEx : StackItem := { kind := "stop" }

/-- C4: for every over item, `checkItem` on an incoming item of kind `over`
immediately raises the `AmbiguousUseOf` ("Ambiguous use of %1") error
carrying the incoming item's name, and an over item built by the
constructor carries the name `\over`, so a second `\over` in the same group
always fails with "Ambiguous use of \over". -/
theorem C4_over_double_over (self item : StackItem) (h : item.kind = "over") :
    OverItem.checkItem self item =
      .error ⟨"AmbiguousUseOf", "Ambiguous use of %1", [item.nameD]⟩ ∧
    (overItem [] []).nameD = "\\over" := by
  constructor
  · simp [OverItem.checkItem, h]
  · rfl

/-- C4 witness: a second over item reaching an over item fails with
"Ambiguous use of \over". -/
theorem C4_over_double_over_witness :
    OverItem.checkItem (overItem [] []) (overItem [] []) =
      .error ⟨"AmbiguousUseOf", "Ambiguous use of %1", ["\\over"]⟩ ∧
    (overItem [] []).nameD = "\\over" :=
  C4_over_double_over (overItem [] []) (overItem [] []) rfl

/-- C3: for every begin item, an incoming end item with a different name
raises `EnvBadEnd` carrying both names; an incoming stop item raises
`EnvMissingEnd` carrying the begin item's name; an end item with the
matching name and no `end` property reduces to a single mml item built from
the accumulated nodes. -/
theorem C3_begin_checkItem (self item sitem : StackItem)
    (hend : item.kind = "end") (hstop : sitem.kind = "stop") :
    (item.getName ≠ self.getName →
       BeginItem.checkItem self item =
         .error ⟨"EnvBadEnd", "\\begin{%1} ended with \\end{%2}", [self.nameD, item.nameD]⟩) ∧
    BeginItem.checkItem self sitem =
      .error ⟨"EnvMissingEnd", "Missing \\end{%1}", [self.nameD]⟩ ∧
    (item.getName = self.getName → truthyProp self "end" = false →
       BeginItem.checkItem self item = .ok (.res [.item (mmlItem (toMml self))])) := by
  refine ⟨?_, ?_, ?_⟩
  · intro hne
    simp [BeginItem.checkItem, hend, hne]
  · simp [BeginItem.checkItem, hstop]
  · intro heq hnoend
    simp [BeginItem.checkItem, hend, heq, hnoend]

/-- C3 witness: `\begin{foo}` closed by `\end{bar}` fails naming both, by
`\end` of the stop item fails naming `foo`, and closed by `\end{foo}`
reduces to a single mml item. -/
theorem C3_begin_checkItem_witness :
    BeginItem.checkItem beginFoo endBar =
      .error ⟨"EnvBadEnd", "\\begin{%1} ended with \\end{%2}", ["foo", "bar"]⟩ ∧
    BeginItem.checkItem beginFoo stopItemEx =
      .error ⟨"EnvMissingEnd", "Missing \\end{%1}", ["foo"]⟩ ∧
    BeginItem.checkItem beginFoo endFoo = .ok (.res [.item (mmlItem (toMml beginFoo))]) :=
  ⟨(C3_begin_checkItem beginFoo endBar stopItemEx rfl rfl).1 (by decide),
   (C3_begin_checkItem beginFoo endBar stopItemEx rfl rfl).2.1,
   (C3_begin_checkItem beginFoo endFoo stopItemEx rfl rfl).2.2 (by decide) rfl⟩

/-- Concrete right item with delimiter `)`. -/
def rightEx : StackItem := { kind := "right", props := [("delim", .str ")")] }

/-- C8: for every left item, an incoming right item reduces to a single mml
item fencing the accumulated content with the left item's delimiter and the
right item's delimiter; the left-item constructor registers
`ExtraLeftMissingRight` ("Extra \left or missing \right") for the `stop`
close kind, and an item carrying that registration fails with exactly that
error when the terminal stop item reaches it. -/
theorem C8_left_checkItem (self item sitem : StackItem)
    (herr : self.errors = [("stop", "ExtraLeftMissingRight", "Extra \\left or missing \\right")])
    (hr : item.kind = "right") (hs : sitem.kind = "stop") :
    LeftItem.checkItem self item =
      .ok (.res [.item (mmlItem
        (fenced (getStrPropD self "delim") (toMml self) (getStrPropD item "delim")))]) ∧
    LeftItem.checkItem self sitem =
      .error ⟨"ExtraLeftMissingRight", "Extra \\left or missing \\right", []⟩ ∧
    (leftItem [] []).errors =
      [("stop", "ExtraLeftMissingRight", "Extra \\left or missing \\right")] := by
  refine ⟨?_, ?_, rfl⟩
  · simp [LeftItem.checkItem, hr]
  · simp [LeftItem.checkItem, hs, baseCheckItem, isCloseKind, herr]

/-- C8 witness: a freshly constructed `\left(` item reduced by `\right)`
yields the fenced group, and reached by the terminal stop item fails with
"Extra \left or missing \right". -/
theorem C8_left_checkItem_witness :
    LeftItem.checkItem (leftItem [] []) rightEx =
      .ok (.res [.item (mmlItem (fenced "(" (toMml (leftItem [] [])) ")"))]) ∧
    LeftItem.checkItem (leftItem [] []) stopItemEx =
      .error ⟨"ExtraLeftMissingRight", "Extra \\left or missing \\right", []⟩ :=
  ⟨(C8_left_checkItem (leftItem [] []) rightEx stopItemEx rfl rfl rfl).1,
   (C8_left_checkItem (leftItem [] []) rightEx stopItemEx rfl rfl rfl).2.1⟩

/-- C5: a prime item whose base (first payload node) is not an `msubsup`
builds a fresh `msup` with the base as first child and the prime glyph as
second; a base that already is an `msubsup` (including its `msup`/`msub`
subclasses) has the prime glyph written into its existing sup slot — which
for an `msup` base is slot 1, so a second prime lands in the same node
instead of nesting; and when the subsup item later merges a queued primes
node in sup position it flags the primes node `variantForm` inside the
merged row. -/
theorem C5_prime_checkItem (self item : StackItem) (base pr : MmlNode)
    (hn : self.nodes = [base, pr]) :
    (isType base "msubsup" = false →
       PrimeItem.checkItem self item =
         .res [.node (.elem "msup" [] [] [base, pr]), .item item]) ∧
    (isType base "msubsup" = true →
       PrimeItem.checkItem self item =
         .res [.node (setChild base (supIdx base) pr), .item item]) ∧
    (∀ a p cs, supIdx (.elem "msup" a p cs) = 1) ∧
    (∀ nsit ps p itop rest mitem,
       ps.lookup "position" = some (PVal.num 2) →
       ps.lookup "primes" = some (PVal.node p) →
       ps.lookup "movesupsub" = none →
       mitem.kind = "mml" → mitem.nodes = itop :: rest →
       SubsupItem.checkItem (subsupItem nsit ps) mitem =
         .ok (.res [.item (mmlItem (setChild (nsit.headD .null) 2
           (.elem "mrow" [] [] [setNodeProps p [("variantForm", .bool true)], itop])))])) := by
  refine ⟨?_, ?_, ?_, ?_⟩
  · intro h
    simp [PrimeItem.checkItem, hn, h]
  · intro h
    simp [PrimeItem.checkItem, hn, h]
  · intro a p cs
    simp [supIdx, MmlNode.kindOf]
  · intro nsit ps p itop rest mitem hpos hpr hmv hk hns
    simp [SubsupItem.checkItem, subsupItem, StackItem.getProperty, StackItem.TopD,
      hpos, hpr, hmv, hk, hns]

/-- Concrete token `a`. -/
def miA : MmlNode := .elem "mi" [] [] [.text "a"]

/-- Concrete prime-glyph node. -/
def primeGlyph : MmlNode := .elem "mo" [] [] [.text "′"]

/-- Concrete second prime glyph. -/
def primeGlyph2 : MmlNode := .elem "mo" [] [] [.text "″"]

/-- C5 witness: `a'` builds `msup(a, prime)`; feeding that `msup` back as a
prime base writes the next prime into its slot 1 (the `msup` sup slot)
rather than nesting; and the subsup merge of a queued primes node in sup
position produces the variant-form-flagged row. -/
theorem C5_prime_checkItem_witness :
    PrimeItem.checkItem { kind := "prime", nodes := [miA, primeGlyph] } stopItemEx =
      .res [.node (.elem "msup" [] [] [miA, primeGlyph]), .item stopItemEx] ∧
    PrimeItem.checkItem
        { kind := "prime", nodes := [.elem "msup" [] [] [miA, primeGlyph], primeGlyph2] }
        stopItemEx =
      .res [.node (.elem "msup" [] [] [miA, primeGlyph2]), .item stopItemEx] ∧
    SubsupItem.checkItem
        (subsupItem [.elem "msubsup" [] [] [miA]]
          [("position", .num 2), ("primes", .node primeGlyph)])
        (mmlItem (.elem "mn" [] [] [.text "2"])) =
      .ok (.res [.item (mmlItem (.elem "msubsup" [] []
        [miA, .null, .elem "mrow" [] []
          [setNodeProps primeGlyph [("variantForm", .bool true)],
           .elem "mn" [] [] [.text "2"]]]))]) :=
  ⟨(C5_prime_checkItem { kind := "prime", nodes := [miA, primeGlyph] } stopItemEx
      miA primeGlyph rfl).1 rfl,
   (C5_prime_checkItem
      { kind := "prime", nodes := [.elem "msup" [] [] [miA, primeGlyph], primeGlyph2] }
      stopItemEx (.elem "msup" [] [] [miA, primeGlyph]) primeGlyph2 rfl).2.1 rfl,
   (C5_prime_checkItem { kind := "prime", nodes := [miA, primeGlyph] } stopItemEx
      miA primeGlyph rfl).2.2.2 [.elem "msubsup" [] [] [miA]]
      [("position", .num 2), ("primes", .node primeGlyph)] primeGlyph
      (.elem "mn" [] [] [.text "2"]) [] (mmlItem (.elem "mn" [] [] [.text "2"]))
      rfl rfl rfl rfl rfl⟩

/-- C10: a subsup item in subscript position (`position = 1`) holding a
queued `primes` node, on an incoming mml item, writes the primes node into
child slot 2 (the superscript slot) of the base node, the incoming subtree
into slot 1, and reduces to a single mml item carrying the combined base
node. -/
theorem C10_subsup_primes_on_sub (nsit : List MmlNode) (ps : List (String × PVal))
    (p itop : MmlNode) (rest : List MmlNode) (mitem : StackItem)
    (hpos : ps.lookup "position" = some (PVal.num 1))
    (hpr : ps.lookup "primes" = some (PVal.node p))
    (hmv : ps.lookup "movesupsub" = none)
    (hk : mitem.kind = "mml") (hns : mitem.nodes = itop :: rest) :
    SubsupItem.checkItem (subsupItem nsit ps) mitem =
      .ok (.res [.item (mmlItem
        (setChild (setChild (nsit.headD .null) 2 p) 1 itop))]) ∧
    (mmlItem (setChild (setChild (nsit.headD .null) 2 p) 1 itop)).kind = "mml" := by
  constructor
  · simp [SubsupItem.checkItem, subsupItem, StackItem.getProperty, StackItem.TopD,
      hpos, hpr, hmv, hk, hns]
  · rfl

/-- C10 witness: a prime followed by `_1` on base `msubsup(a)` yields the
single combined node `msubsup(a, 1, primes)`. -/
theorem C10_subsup_primes_on_sub_witness :
    SubsupItem.checkItem
        (subsupItem [.elem "msubsup" [] [] [miA]]
          [("position", .num 1), ("primes", .node primeGlyph)])
        (mmlItem (.elem "mn" [] [] [.text "1"])) =
      .ok (.res [.item (mmlItem (.elem "msubsup" [] []
        [miA, .elem "mn" [] [] [.text "1"], primeGlyph]))]) :=
  (C10_subsup_primes_on_sub [.elem "msubsup" [] [] [miA]]
    [("position", .num 1), ("primes", .node primeGlyph)] primeGlyph
    (.elem "mn" [] [] [.text "1"]) [] (mmlItem (.elem "mn" [] [] [.text "1"]))
    rfl rfl rfl rfl rfl).1

/-- C6: a subsup item (whose constructor registers the `stop`, `sup` and
`sub` errors) closed by the terminal stop item fails with the registered
`MissingScript` ("Missing superscript or subscript argument") error; an
incoming item that is not open/left/mml and not a close item falls through
the default handler and raises the error selected by the item's `position`
property — `MissingOpenForSub` for position 1, `MissingOpenForSup` for
position 2. -/
theorem C6_subsup_missing_argument (nsit : List MmlNode) (ps : List (String × PVal))
    (pos : Int) (sitem oitem : StackItem)
    (hpos : ps.lookup "position" = some (PVal.num pos))
    (hstop : sitem.kind = "stop")
    (hnc : isCloseKind oitem.kind = false)
    (ho1 : oitem.kind ≠ "open") (ho2 : oitem.kind ≠ "left") (ho3 : oitem.kind ≠ "mml") :
    SubsupItem.checkItem (subsupItem nsit ps) sitem =
      .error ⟨"MissingScript", "Missing superscript or subscript argument", []⟩ ∧
    (pos = 1 → SubsupItem.checkItem (subsupItem nsit ps) oitem =
      .error ⟨"MissingOpenForSub", "Missing open brace for subscript", []⟩) ∧
    (pos = 2 → SubsupItem.checkItem (subsupItem nsit ps) oitem =
      .error ⟨"MissingOpenForSup", "Missing open brace for superscript", []⟩) := by
  refine ⟨?_, ?_, ?_⟩
  · simp [SubsupItem.checkItem, subsupItem, hstop, baseCheckItem, isCloseKind, subsupErrors]
  · intro h
    subst h
    simp [SubsupItem.checkItem, subsupItem, StackItem.getProperty, hpos, ho1, ho2, ho3,
      baseCheckItem, hnc, subsupErrors]
    rfl
  · intro h
    subst h
    simp [SubsupItem.checkItem, subsupItem, StackItem.getProperty, hpos, ho1, ho2, ho3,
      baseCheckItem, hnc, subsupErrors]
    rfl

/-- C6 witness: a pending superscript (`position = 2`) closed by the stop
item fails with `MissingScript`, and met by another subsup item fails with
`MissingOpenForSup`. -/
theorem C6_subsup_missing_argument_witness :
    SubsupItem.checkItem (subsupItem [miA] [("position", .num 2)]) stopItemEx =
      .error ⟨"MissingScript", "Missing superscript or subscript argument", []⟩ ∧
    SubsupItem.checkItem (subsupItem [miA] [("position", .num 2)])
        (subsupItem [] [("position", .num 1)]) =
      .error ⟨"MissingOpenForSup", "Missing open brace for superscript", []⟩ :=
  ⟨(C6_subsup_missing_argument [miA] [("position", .num 2)] 2 stopItemEx
      (subsupItem [] [("position", .num 1)]) rfl rfl rfl
      (by decide) (by decide) (by decide)).1,
   (C6_subsup_missing_argument [miA] [("position", .num 2)] 2 stopItemEx
      (subsupItem [] [("position", .num 1)]) rfl rfl rfl
      (by decide) (by decide) (by decide)).2.2 rfl⟩

/-- C9: an over item receiving any close item other than another `over`
reduces to an mml item followed by the close item itself, where the mml item
wraps `mfrac(num, toMml(false))` — the stored numerator against the
remaining content built without inferred-row wrapping; a stored `thickness`
property becomes the `linethickness` attribute; truthy `open`/`close`
delimiter properties mark the fraction `withDelims` and wrap it in a fixed
fence built from those delimiters. -/
theorem C9_over_close_reduction (self item : StackItem) (num : MmlNode)
    (hnum : self.getProperty "num" = some (PVal.node num))
    (hclose : isCloseKind item.kind = true) (hno : item.kind ≠ "over") :
    (self.getProperty "thickness" = none → truthyProp self "open" = false →
       truthyProp self "close" = false →
       OverItem.checkItem self item =
         .ok (.res [.item (mmlItem (.elem "mfrac" [] [] [num, toMml self false])),
           .item item])) ∧
    (∀ t, self.getProperty "thickness" = some (PVal.str t) →
       truthyProp self "open" = false → truthyProp self "close" = false →
       OverItem.checkItem self item =
         .ok (.res [.item (mmlItem (setAttr (.elem "mfrac" [] [] [num, toMml self false])
           "linethickness" (.str t))), .item item])) ∧
    (∀ t, self.getProperty "thickness" = some (PVal.str t) →
       truthyProp self "open" = true →
       OverItem.checkItem self item =
         .ok (.res [.item (mmlItem (fixedFence (getStrPropD self "open")
           (setNodeProps (setAttr (.elem "mfrac" [] [] [num, toMml self false])
             "linethickness" (.str t)) [("withDelims", .bool true)])
           (getStrPropD self "close"))), .item item])) := by
  refine ⟨?_, ?_, ?_⟩
  · intro ht hop hcl
    simp [OverItem.checkItem, hno, hclose, hnum, ht, hop, hcl]
  · intro t ht hop hcl
    simp [OverItem.checkItem, hno, hclose, hnum, ht, hop, hcl, pvalToNVal]
  · intro t ht hop
    simp [OverItem.checkItem, hno, hclose, hnum, ht, hop, pvalToNVal]

/-- Concrete token `b`. -/
def miB : MmlNode := .elem "mi" [] [] [.text "b"]

/-- Concrete close item (`}`). -/
def closeItemEx : StackItem := { kind := "close" }

/-- C9 witness: a plain `\over` with numerator `a` and content `b` closed by
`}` yields `mfrac(a, b)` followed by the close item, and a `\choose`-style
item with thickness `0` and delimiters yields the fenced, `withDelims`,
`linethickness`-annotated fraction. -/
theorem C9_over_close_reduction_witness :
    OverItem.checkItem (overItem [miB] [("num", .node miA)]) closeItemEx =
      .ok (.res [.item (mmlItem (.elem "mfrac" [] [] [miA, miB])), .item closeItemEx]) ∧
    OverItem.checkItem
        (overItem [miB] [("num", .node miA), ("thickness", .str "0"),
          ("open", .str "("), ("close", .str ")")]) closeItemEx =
      .ok (.res [.item (mmlItem (fixedFence "("
        (setNodeProps (setAttr (.elem "mfrac" [] [] [miA, miB]) "linethickness" (.str "0"))
          [("withDelims", .bool true)]) ")")), .item closeItemEx]) :=
  ⟨(C9_over_close_reduction (overItem [miB] [("num", .node miA)]) closeItemEx miA
      rfl rfl (by decide)).1 rfl rfl rfl,
   (C9_over_close_reduction
      (overItem [miB] [("num", .node miA), ("thickness", .str "0"),
        ("open", .str "("), ("close", .str ")")]) closeItemEx miA
      rfl rfl (by decide)).2.2 "0" rfl rfl⟩

/-- C7: a not item receiving an mml item whose node is an `mo`/`mi`/`mtext`
token with a single-code-unit text, no `movesupsub` property and exactly one
child replaces the text with the negated glyph when the character is in the
`not_remap` table — the incoming item coming back unchanged in kind — and
appends a combining slash U+0338 to the token when it is not; any other
shape (multi-code-unit text, `movesupsub` set, or a non-token node) pushes
the width-0 `mpadded`-wrapped `mtext` U+29F8 inside a TeX-class-REL
`TeXAtom` before the incoming item. -/
theorem C7_not_checkItem (remap : String → Option String) (self item : StackItem)
    (mml : MmlNode) (hk : item.kind = "mml") (htop : item.Top? = some mml) :
    (∀ r, (isType mml "mo" || isType mml "mi" || isType mml "mtext") = true →
       jsLen mml.getText = 1 → getNodeProp mml "movesupsub" = none →
       (getChildren mml).length = 1 → remap mml.getText = some r →
       NotItem.checkItem remap self item =
         .res [.item (item.setTop (setChild mml 0 (.text r)))] ∧
       (item.setTop (setChild mml 0 (.text r))).kind = item.kind) ∧
    ((isType mml "mo" || isType mml "mi" || isType mml "mtext") = true →
       jsLen mml.getText = 1 → getNodeProp mml "movesupsub" = none →
       (getChildren mml).length = 1 → remap mml.getText = none →
       NotItem.checkItem remap self item =
         .res [.item (item.setTop (appendChildren mml [.text "̸"]))]) ∧
    ((isType mml "mo" || isType mml "mi" || isType mml "mtext") = true →
       jsLen mml.getText ≠ 1 →
       NotItem.checkItem remap self item = .res [.node notLargeOverlay, .item item]) ∧
    ((isType mml "mo" || isType mml "mi" || isType mml "mtext") = true →
       getNodeProp mml "movesupsub" = some (.bool true) →
       NotItem.checkItem remap self item = .res [.node notLargeOverlay, .item item]) ∧
    ((isType mml "mo" || isType mml "mi" || isType mml "mtext") = false →
       NotItem.checkItem remap self item = .res [.node notLargeOverlay, .item item]) ∧
    notLargeOverlay = .elem "TeXAtom" [] [("texClass", .num TEXCLASS_REL)]
      [.elem "mpadded" [("width", .num 0)] [] [.elem "mtext" [] [] [.text "⧸"]]] := by
  refine ⟨?_, ?_, ?_, ?_, ?_, rfl⟩
  · intro r htok hlen hmv hch hr
    refine ⟨?_, rfl⟩
    simp [NotItem.checkItem, hk, htop, htok, hlen, hmv, hch, hr]
  · intro htok hlen hmv hch hr
    simp [NotItem.checkItem, hk, htop, htok, hlen, hmv, hch, hr]
  · intro htok hlen
    simp [NotItem.checkItem, hk, htop, htok, hlen]
  · intro htok hmv
    simp [NotItem.checkItem, hk, htop, htok, hmv, NVal.truthy]
  · intro htok
    simp [NotItem.checkItem, hk, htop, htok]

/-- Concrete `not_remap` table fragment: `=` remaps to `≠` (the spec records
that `=` is present in the table). -/
def remapEx : String → Option String :=
  fun c => if c = "=" then some "≠" else none

/-- Concrete token `=`. -/
def moEq : MmlNode := .elem "mo" [] [] [.text "="]

/-- Concrete token `α`. -/
def miAlpha : MmlNode := .elem "mi" [] [] [.text "α"]

/-- Concrete multi-character token. -/
def miWord : MmlNode := .elem "mi" [] [] [.text "abc"]

/-- Concrete not item. -/
def notItemEx : StackItem := { kind := "not" }

/-- C7 witness: `\not=` rewrites the token text to the remapped negated
glyph; a single-character token without a remap entry gets the combining
slash appended; a multi-character token gets the struck-through overlay
pushed before it. -/
theorem C7_not_checkItem_witness :
    NotItem.checkItem remapEx notItemEx (mmlItem moEq) =
      .res [.item ((mmlItem moEq).setTop (setChild moEq 0 (.text "≠")))] ∧
    NotItem.checkItem remapEx notItemEx (mmlItem miAlpha) =
      .res [.item ((mmlItem miAlpha).setTop (appendChildren miAlpha [.text "̸"]))] ∧
    NotItem.checkItem remapEx notItemEx (mmlItem miWord) =
      .res [.node notLargeOverlay, .item (mmlItem miWord)] :=
  ⟨((C7_not_checkItem remapEx notItemEx (mmlItem moEq) moEq rfl rfl).1
      "≠" rfl rfl rfl rfl rfl).1,
   (C7_not_checkItem remapEx notItemEx (mmlItem miAlpha) miAlpha rfl rfl).2.1
      rfl rfl rfl rfl rfl,
   (C7_not_checkItem remapEx notItemEx (mmlItem miWord) miWord rfl rfl).2.2.1
      rfl (by decide)⟩

/-- Oracle for operator queries on plain tokens: nothing is embellished and
nothing has an operator-dictionary entry. -/
def oracleTriv : MoOracle :=
  { isEmbellished := fun _ => false, getCoreMO := fun n => n, getForm := fun _ => none }

/-- Oracle under which every node's dictionary entry has form class REL
(3), whose table entry is 1. -/
def oracleRel : MoOracle :=
  { isEmbellished := fun _ => false, getCoreMO := fun n => n,
    getForm := fun _ => some (0, 0, 3) }

/-- Concrete fn item holding the function token `f`. -/
def fnSelfEx : StackItem := { kind := "fn", nodes := [.elem "mi" [] [] [.text "f"]] }

/-- Concrete incoming fn item holding the function token `g`. -/
def fnIncEx : StackItem := { kind := "fn", nodes := [.elem "mi" [] [] [.text "g"]] }

/-- C2 counterexample: the claim says an incoming fn item is an exception
re-pushed with no operator inserted, but on a concrete fn item meeting
another fn item the code inserts the invisible apply-function `mo` between
them — the no-operator result the claim requires differs from the actual
one. -/
theorem C2_counterexample :
    FnItem.checkItem oracleTriv fnSelfEx fnIncEx =
      .ok (.res [.node (.elem "mi" [] [] [.text "f"]), .node applyFnMO, .item fnIncEx]) ∧
    CheckRes.res [.node (.elem "mi" [] [] [.text "f"]), .node applyFnMO, .item fnIncEx] ≠
      CheckRes.res [.node (.elem "mi" [] [] [.text "f"]), .item fnIncEx] := by
  constructor
  · rfl
  · intro h
    have hlen := congrArg
      (fun r => match r with
        | CheckRes.res l => l.length
        | _ => 0) h
    simp at hlen

/-- C2 amended: with a nonempty payload and a non-open incoming item, the fn
item re-pushes the function node and the incoming item with no operator
inserted exactly when the incoming item is a non-fn item that is not an mml
item carrying a node, carries an `mspace`, or carries a node whose
(embellished-unwrapped) core operator's dictionary form class indexes a 1 in
the table `[0,0,1,1,0,1,1,0,0,0]`; in every other case — including an
incoming fn item — the invisible apply-function operator (`mo` of TeX class
NONE) is inserted between them. -/
theorem C2_fn_checkItem_amended (o : MoOracle) (self item : StackItem) (top : MmlNode)
    (htop : self.Top? = some top) (hopen : isOpenKind item.kind = false) :
    (item.kind = "fn" →
       FnItem.checkItem o self item =
         .ok (.res [.node top, .node applyFnMO, .item item])) ∧
    (item.kind ≠ "mml" → item.kind ≠ "fn" →
       FnItem.checkItem o self item = .ok (.res [.node top, .item item])) ∧
    (item.kind = "mml" → item.Top? = none →
       FnItem.checkItem o self item = .ok (.res [.node top, .item item])) ∧
    (∀ mml, item.kind = "mml" → item.Top? = some mml → isType mml "mspace" = true →
       FnItem.checkItem o self item = .ok (.res [.node top, .item item])) ∧
    (∀ mml f, item.kind = "mml" → item.Top? = some mml → isType mml "mspace" = false →
       o.getForm (if o.isEmbellished mml then o.getCoreMO mml else mml) = some f →
       fnFormSuppress f.2.2 = true →
       FnItem.checkItem o self item = .ok (.res [.node top, .item item])) ∧
    (∀ mml, item.kind = "mml" → item.Top? = some mml → isType mml "mspace" = false →
       (∀ f, o.getForm (if o.isEmbellished mml then o.getCoreMO mml else mml) = some f →
          fnFormSuppress f.2.2 = false) →
       FnItem.checkItem o self item =
         .ok (.res [.node top, .node applyFnMO, .item item])) := by
  refine ⟨?_, ?_, ?_, ?_, ?_, ?_⟩
  · intro hk
    simp [FnItem.checkItem, isOpenKind, htop, hk]
  · intro hm hk
    simp [FnItem.checkItem, htop, hopen, hk, hm]
  · intro hk hm
    simp [FnItem.checkItem, isOpenKind, htop, hk, hm]
  · intro mml hk hm hsp
    simp [FnItem.checkItem, isOpenKind, htop, hk, hm, hsp]
  · intro mml f hk hm hsp hf hsup
    simp [FnItem.checkItem, isOpenKind, htop, hk, hm, hsp, hf, hsup]
  · intro mml hk hm hsp hf
    cases hform : o.getForm (if o.isEmbellished mml then o.getCoreMO mml else mml) with
    | none => simp [FnItem.checkItem, isOpenKind, htop, hk, hm, hsp, hform]
    | some f => simp [FnItem.checkItem, isOpenKind, htop, hk, hm, hsp, hform, hf f hform]

/-- C2 amended witness: a fn item meeting another fn item inserts the
apply-function operator, and a fn item meeting a REL-class operator token is
re-pushed with no operator. -/
theorem C2_fn_checkItem_amended_witness :
    FnItem.checkItem oracleTriv fnSelfEx fnIncEx =
      .ok (.res [.node (.elem "mi" [] [] [.text "f"]), .node applyFnMO, .item fnIncEx]) ∧
    FnItem.checkItem oracleRel fnSelfEx (mmlItem moEq) =
      .ok (.res [.node (.elem "mi" [] [] [.text "f"]), .item (mmlItem moEq)]) :=
  ⟨(C2_fn_checkItem_amended oracleTriv fnSelfEx fnIncEx (.elem "mi" [] [] [.text "f"])
      rfl rfl).1 rfl,
   (C2_fn_checkItem_amended oracleRel fnSelfEx (mmlItem moEq) (.elem "mi" [] [] [.text "f"])
      rfl rfl).2.2.2.2.1 moEq (0, 0, 3) rfl rfl rfl rfl rfl⟩

/-- The array item state: the fields of `ArrayItem` (`BaseItems.ts`
521-529) together with the inherited payload and property bag. -/
structure ArrayItem where
  nodes : List MmlNode := []
  props : List (String × PVal) := []
  table : List MmlNode := []
  row : List MmlNode := []
  frame : List String := []
  hfill : List Nat := []
  dashed : Bool := false
  arraydef : List (String × NVal) := []

/-- JS `string.split(/ /)`: split on every single space (an empty string
gives `[""]`, adjacent spaces give empty fields). -/
def splitSpAux : List Char → List Char → List String
  | [], acc => [String.mk acc.reverse]
  | c :: rest, acc =>
    if c = ' ' then String.mk acc.reverse :: splitSpAux rest []
    else splitSpAux rest (c :: acc)

/-- JS `string.split(/ /)` on a whole string. -/
def jsSplitSpace (s : String) : List String :=
  splitSpAux s.data []

/-- JS `array.join(' ')`. -/
def joinSpace : List String → String
  | [] => ""
  | [x] => x
  | x :: rest => x ++ " " ++ joinSpace rest

/-- String read of an `arraydef` field. -/
def arraydefStr (a : List (String × NVal)) (k : String) : Option String :=
  match a.lookup k with
  | some (.str s) => some s
  | _ => none

/-- Truthy string read of an `arraydef` field (`if (this.arraydef[k])`): the
field must be present and a nonempty string. -/
def arraydefTruthyStr (a : List (String × NVal)) (k : String) : Option String :=
  match a.lookup k with
  | some (.str s) => if s = "" then none else some s
  | _ => none

/-- The `while (rows.length < this.table.length) rows.push(...)` loop of
`checkLines`. -/
def padRowspacingList (rows : List String) (n : Nat) (s : String) : List String :=
  if rows.length < n then padRowspacingList (rows ++ [s]) n s else rows
termination_by n - rows.length
decreasing_by simp; omega

/-- `ArrayItem.checkLines` (`BaseItems.ts` 672-689): when a truthy
`rowlines` pattern is present, a pattern with exactly as many entries as
accumulated rows loses its last entry to a `bottom` frame line; a pattern
with fewer entries than rows minus one gets a single `" none"` appended;
otherwise the pattern is untouched.  A truthy `rowspacing` property then
pads the `rowspacing` attribute up to the row count. -/
def ArrayItem.checkLines (self : ArrayItem) : ArrayItem :=
  let self1 :=
    match arraydefTruthyStr self.arraydef "rowlines" with
    | some rl =>
      let lines := jsSplitSpace rl
      if lines.length = self.table.length then
        { self with frame := self.frame ++ ["bottom"],
                    arraydef := setKey self.arraydef "rowlines"
                      (.str (joinSpace lines.dropLast)) }
      else if lines.length < self.table.length - 1 then
        { self with arraydef := setKey self.arraydef "rowlines" (.str (rl ++ " none")) }
      else self
    | none => self
  match self1.props.lookup "rowspacing" with
  | some v =>
    if v.truthy then
      { self1 with
          arraydef := setKey self1.arraydef "rowspacing"
                        (.str (joinSpace (padRowspacingList
                          (jsSplitSpace ((arraydefStr self1.arraydef "rowspacing").getD ""))
                          self1.table.length (v.toJsString ++ "em")))) }
    else self1
  | none => self1

/-- A concrete row node. -/
def mtrEx : MmlNode := .elem "mtr" [] [] []

/-- Concrete array item: two accumulated rows, `rowlines="solid"` set for
one row. -/
def arrayTwoRows : ArrayItem :=
  { table := [mtrEx, mtrEx], arraydef := [("rowlines", .str "solid")] }

/-- Concrete array item with four accumulated rows and a one-entry rowlines
pattern. -/
def arrayFourRows : ArrayItem :=
  { table := [mtrEx, mtrEx, mtrEx, mtrEx], arraydef := [("rowlines", .str "solid")] }

/-- C1 counterexample: on the claim's own example — 2 accumulated rows with
`rowlines` set for 1 row — `checkLines` leaves the one-entry pattern
`"solid"` unchanged; it is not padded with "none" entries to match the row
count 2. -/
theorem C1_counterexample :
    (ArrayItem.checkLines arrayTwoRows).arraydef.lookup "rowlines" =
      some (.str "solid") ∧
    (jsSplitSpace "solid").length = 1 ∧ arrayTwoRows.table.length = 2 := by
  exact ⟨rfl, rfl, rfl⟩

/-- C1 amended: for a truthy `rowlines` pattern (and no `rowspacing`
property), `checkLines` moves the last entry into a `bottom` frame line when
the entry count equals the row count, appends a single `" none"` when the
count is less than the row count minus one, and otherwise — including the
claimed case of one entry for two rows — leaves the pattern unchanged; it
never pads the pattern to the row count. -/
theorem C1_checkLines_amended (self : ArrayItem) (rl : String)
    (hrl : arraydefTruthyStr self.arraydef "rowlines" = some rl)
    (hsp : self.props.lookup "rowspacing" = none) :
    ((jsSplitSpace rl).length = self.table.length →
       ArrayItem.checkLines self =
         { self with frame := self.frame ++ ["bottom"],
                     arraydef := setKey self.arraydef "rowlines"
                       (.str (joinSpace (jsSplitSpace rl).dropLast)) }) ∧
    ((jsSplitSpace rl).length ≠ self.table.length →
     (jsSplitSpace rl).length < self.table.length - 1 →
       ArrayItem.checkLines self =
         { self with arraydef := setKey self.arraydef "rowlines" (.str (rl ++ " none")) }) ∧
    ((jsSplitSpace rl).length ≠ self.table.length →
     ¬ (jsSplitSpace rl).length < self.table.length - 1 →
       ArrayItem.checkLines self = self) := by
  refine ⟨?_, ?_, ?_⟩
  · intro h
    simp [ArrayItem.checkLines, hrl, h, hsp]
  · intro h1 h2
    simp [ArrayItem.checkLines, hrl, h1, h2, hsp]
  · intro h1 h2
    simp [ArrayItem.checkLines, hrl, h1, h2, hsp]

/-- C1 amended witness: four rows with the one-entry pattern `"solid"` get
exactly one `" none"` appended (two entries — still fewer than the row
count), and the two-row case leaves the pattern untouched. -/
theorem C1_checkLines_amended_witness :
    ArrayItem.checkLines arrayFourRows =
      { arrayFourRows with
        arraydef := setKey arrayFourRows.arraydef "rowlines" (.str "solid none") } ∧
    ArrayItem.checkLines arrayTwoRows = arrayTwoRows :=
  ⟨(C1_checkLines_amended arrayFourRows "solid" rfl rfl).2.1 (by decide) (by decide),
   (C1_checkLines_amended arrayTwoRows "solid" rfl rfl).2.2 (by decide) (by decide)⟩
